import Mathlib

/-!
Verification of the document pipeline in `build.py` (with `render.py` as an
earlier revision of the same code): the tree normalizer (`unwrap_block` /
`unwrap_blocks`) and the HTML renderer (`ast_node_to_html` /
`ast_nodes_to_html` / `ast_to_html`), including the table-of-contents
synthesis loop.

Strings are modelled as `List Char` (named `Chars` below), so that Python's
string slicing, `replace`, and concatenation become plain list operations.
Python exceptions (`assert`, `raise TypeError`, `IndexError`) become
`Except` errors, one error constructor per raise site.
-/

abbrev Chars := List Char

/-- Repeat a character list `n` times and concatenate: Python's `s * n`
(for `n` copies of the string `s`). -/
def py_str_mul (s : Chars) (n : Nat) : Chars :=
  (List.replicate n s).flatten

/-- Python slice `s[:-2]` (drop the last two characters), used in
`build.py` lines 121-122 to strip the trailing parens of `str(style)`. -/
def py_drop_last2 (s : Chars) : Chars :=
  s.take (s.length - 2)

/-- Python slice `s[4:-5]` from `build.py` line 186
(`node_html[4:-5]`): drop the first four and last five characters. -/
def heading_slice (s : Chars) : Chars :=
  (s.drop 4).take (s.length - 9)

/-! ## Generic input tree (pandoc block/inline union, `pandoc.types.*`)

One constructor per `pandoc.types` class that `unwrap_block` dispatches on
(`build.py` lines 87-167).  Pandoc `Attr` triples are flattened into
separate `id`/`classes`/`kvs` fields; the ordered-list style and delimiter
objects are carried as their Python `str(...)` rendering, which is what the
code consumes. -/

inductive PBlock where
  | rawBlock (format : Chars) (text : Chars)
  | header (level : Nat) (id : Chars) (classes : List Chars)
      (kvs : List (Chars × Chars)) (children : List PBlock)
  | para (children : List PBlock)
  | plain (children : List PBlock)
  | strong (children : List PBlock)
  | emph (children : List PBlock)
  | orderedList (start : Int) (styleRepr : Chars) (delimRepr : Chars)
      (items : List (List PBlock))
  | codeBlock (id : Chars) (classes : List Chars)
      (kvs : List (Chars × Chars)) (text : Chars)
  | code (id : Chars) (classes : List Chars)
      (kvs : List (Chars × Chars)) (text : Chars)
  | link (id : Chars) (classes : List Chars) (kvs : List (Chars × Chars))
      (children : List PBlock) (url : Chars) (title : Chars)
  | span (id : Chars) (classes : List Chars) (kvs : List (Chars × Chars))
      (children : List PBlock)
  | str (text : Chars)
  | space
  | softBreak

/-! ## Semantic node tree

One constructor per `node_type` string produced by `unwrap_block`.
A `todoItem` derived from a heading keeps its level (`some l`), one derived
from a paragraph has none; the renderer never reads it. -/

inductive Node where
  | orgDirective (type : Chars) (value : Chars)
  | heading (level : Nat) (children : List Node)
  | paragraph (children : List Node)
  | plainText (children : List Node)
  | strongText (children : List Node)
  | emphasizedText (children : List Node)
  | orderedList (start : Int) (style : Chars) (delim : Chars)
      (children : List Node)
  | listItem (children : List Node)
  | codeBlock (name : Chars) (language : Chars) (text : Chars)
  | inlineCode (text : Chars)
  | link (children : List Node) (target : Chars)
  | span (isTodo : Bool) (children : List Node)
  | string (text : Chars)
  | space
  | softBreak
  | todoItem (level : Option Nat) (children : List Node)

/-- Normalization failures: one constructor per `assert` / raise / indexing
error site in `unwrap_block` (`build.py` lines 87-177).  In Python all of
these surface as exceptions that abort the document. -/
inductive NormError where
  | rawBlockNotOrg (format : Chars)
  | malformedDirective (text : Chars)
  | unsupportedHeadingAttributes
  | unsupportedCodeBlockAttributes
  | unsupportedCodeAttributes
  | unsupportedLinkAttributes
  | emptyBlockChildren
  | emptySpanChildren

/-- Rendering failures: `ast_node_to_html`'s only raise site is the final
`else` branch (`build.py` lines 274-276), reached exactly by node kinds
missing from the dispatch chain. -/
inductive RenderError where
  | unhandledNodeKind (kind : Chars)

/-! ## The directive regex

`build.py` line 91 runs `re.match(r'#\+(\w+):\s+(.+)', block[1])`.
We model `\w` and `\s` by their ASCII character classes and implement the
pattern directly, including the greedy-with-backtracking behavior of
`\s+(.+)` (the whitespace run gives characters back to `.+` when the rest
of the input is pure whitespace). -/

/-- ASCII model of the regex class `\w`. -/
def is_word_char (c : Char) : Bool :=
  c.isAlphanum || c = '_'

/-- ASCII model of the regex class `\s`. -/
def is_space_char (c : Char) : Bool :=
  c = ' ' || c = '\t' || c = '\n' || c = '\r' || c = '\x0b' || c = '\x0c'

/-- The group `(.+)`: a nonempty greedy run of non-newline characters
anchored at the current position. -/
def dot_plus (s : Chars) : Option Chars :=
  let v := s.takeWhile (fun c => c ≠ '\n')
  if v = [] then none else some v

/-- The tail `\s+(.+)` of the directive pattern: consume at least one
whitespace character greedily, backtracking so that `(.+)` can still match
at least one character; return the `(.+)` group. -/
def ws_then_value : Chars → Option Chars
  | [] => none
  | c :: rest =>
      if is_space_char c then
        match ws_then_value rest with
        | some v => some v
        | none => dot_plus rest
      else none

/-- The whole of `re.match(r'#\+(\w+):\s+(.+)', s)`, returning the two
match groups as in `regex_match` (`build.py` lines 17-24). -/
def regex_match_directive (s : Chars) : Option (Chars × Chars) :=
  match s with
  | '#' :: '+' :: rest =>
      let key := rest.takeWhile is_word_char
      if key = [] then none
      else
        match rest.dropWhile is_word_char with
        | ':' :: rest3 =>
            match ws_then_value rest3 with
            | some v => some (key, v)
            | none => none
        | _ => none
  | _ => none

/-! ## HTML escaping (`html_escape`, `build.py` lines 26-32) -/

/-- Python's `string.replace(c, r)` for a single-character needle. -/
def str_replace (c : Char) (r : Chars) : Chars → Chars
  | [] => []
  | a :: rest => (if a = c then r else [a]) ++ str_replace c r rest

/-- The three chained replacements of `html_escape`: `&` first, then `<`,
then `>`. -/
def html_escape (s : Chars) : Chars :=
  str_replace '>' ("&gt;".toList)
    (str_replace '<' ("&lt;".toList)
      (str_replace '&' ("&amp;".toList) s))

/-! ## Tree normalizer (`unwrap_block` / `unwrap_blocks`) -/

/-- TODO promotion, `build.py` lines 169-177: for a freshly built heading
or paragraph, `assert(len(children) > 0)`, then if the first child is a
span whose `is-todo` flag is set, retype the node to `todo-item` and
execute `children[0] = first_child_attrs['children'][0]` (an `IndexError`
if the span has no children). -/
def promote_block (lvl : Option Nat) (cs : List Node) : Except NormError Node :=
  match cs with
  | [] => .error .emptyBlockChildren
  | first :: rest =>
      match first with
      | .span true spanChildren =>
          match spanChildren with
          | [] => .error .emptySpanChildren
          | sc :: _ => .ok (.todoItem lvl (sc :: rest))
      | _ =>
          .ok (match lvl with
               | some l => .heading l (first :: rest)
               | none => .paragraph (first :: rest))

mutual

/-- The dispatch of `unwrap_block` (`build.py` lines 87-177). -/
def unwrap_block : PBlock → Except NormError Node
  | .rawBlock format text =>
      if format = "org".toList then
        match regex_match_directive text with
        | some (key, value) => .ok (.orgDirective (key.map Char.toLower) value)
        | none => .error (.malformedDirective text)
      else .error (.rawBlockNotOrg format)
  | .header level _id classes kvs children =>
      if classes = [] ∧ kvs = [] then
        match unwrap_blocks children with
        | .error e => .error e
        | .ok cs => promote_block (some level) cs
      else .error .unsupportedHeadingAttributes
  | .para children =>
      match unwrap_blocks children with
      | .error e => .error e
      | .ok cs => promote_block none cs
  | .plain children =>
      match unwrap_blocks children with
      | .error e => .error e
      | .ok cs => .ok (.plainText cs)
  | .strong children =>
      match unwrap_blocks children with
      | .error e => .error e
      | .ok cs => .ok (.strongText cs)
  | .emph children =>
      match unwrap_blocks children with
      | .error e => .error e
      | .ok cs => .ok (.emphasizedText cs)
  | .orderedList start styleRepr delimRepr items =>
      match unwrap_items items with
      | .error e => .error e
      | .ok listItems =>
          .ok (.orderedList start (py_drop_last2 styleRepr)
                (py_drop_last2 delimRepr) listItems)
  | .codeBlock id classes _kvs text =>
      match classes with
      | [language] => .ok (.codeBlock id language text)
      | _ => .error .unsupportedCodeBlockAttributes
  | .code id classes kvs text =>
      if id = [] ∧ kvs = [] ∧ classes = ["verbatim".toList] then
        .ok (.inlineCode text)
      else .error .unsupportedCodeAttributes
  | .link id classes kvs children url title =>
      if id = [] ∧ classes = [] ∧ kvs = [] ∧ title = [] then
        match unwrap_blocks children with
        | .error e => .error e
        | .ok cs => .ok (.link cs url)
      else .error .unsupportedLinkAttributes
  | .span _id classes _kvs children =>
      match unwrap_blocks children with
      | .error e => .error e
      | .ok cs =>
          .ok (.span (classes.contains ("todo".toList)
                      || classes.contains ("done".toList)) cs)
  | .str text => .ok (.string text)
  | .space => .ok .space
  | .softBreak => .ok .softBreak

/-- `unwrap_blocks` (`build.py` lines 84-85). -/
def unwrap_blocks : List PBlock → Except NormError (List Node)
  | [] => .ok []
  | b :: bs =>
      match unwrap_block b with
      | .error e => .error e
      | .ok n =>
          match unwrap_blocks bs with
          | .error e => .error e
          | .ok ns => .ok (n :: ns)

/-- The ordered-list item comprehension (`build.py` lines 123-126): each
item becomes a `list-item` node wrapping its unwrapped blocks. -/
def unwrap_items : List (List PBlock) → Except NormError (List Node)
  | [] => .ok []
  | item :: rest =>
      match unwrap_blocks item with
      | .error e => .error e
      | .ok cs =>
          match unwrap_items rest with
          | .error e => .error e
          | .ok ns => .ok (.listItem cs :: ns)

end

/-! ## HTML renderer (`ast_node_to_html` / `ast_nodes_to_html`) -/

/-- Python's `f'<h{n}>'` (`build.py` line 224). -/
def heading_open (n : Nat) : Chars :=
  "<h".toList ++ Nat.toDigits 10 n ++ ">".toList

/-- Python's `f'</h{n}>'` (`build.py` line 226). -/
def heading_close (n : Nat) : Chars :=
  "</h".toList ++ Nat.toDigits 10 n ++ ">".toList

mutual

/-- The dispatch of `ast_node_to_html` (`build.py` lines 213-278).  Note
the chain has no `span` case: a `span` node falls through to the `else`
branch and raises `Unhandled node type`. -/
def ast_node_to_html : Node → Except RenderError Chars
  | .orgDirective _ _ => .ok []
  | .todoItem _ _ => .ok []
  | .heading n children =>
      match ast_nodes_to_html children with
      | .error e => .error e
      | .ok inner => .ok (heading_open n ++ inner ++ heading_close n)
  | .paragraph children =>
      match ast_nodes_to_html children with
      | .error e => .error e
      | .ok inner => .ok ("<p>".toList ++ inner ++ "</p>".toList)
  | .plainText children => ast_nodes_to_html children
  | .strongText children =>
      match ast_nodes_to_html children with
      | .error e => .error e
      | .ok inner => .ok ("<strong>".toList ++ inner ++ "</strong>".toList)
  | .emphasizedText children =>
      match ast_nodes_to_html children with
      | .error e => .error e
      | .ok inner => .ok ("<em>".toList ++ inner ++ "</em>".toList)
  | .orderedList _ _ _ children =>
      match ast_nodes_to_html children with
      | .error e => .error e
      | .ok inner => .ok ("<ol>".toList ++ inner ++ "</ol>".toList)
  | .listItem children =>
      match ast_nodes_to_html children with
      | .error e => .error e
      | .ok inner => .ok ("<li>".toList ++ inner ++ "</li>".toList)
  | .inlineCode text =>
      .ok ("<code>".toList ++ html_escape text ++ "</code>".toList)
  | .codeBlock name _language text =>
      .ok ("<figure>".toList
           ++ (if name = [] then []
               else "<figcaption>".toList ++ html_escape name
                    ++ "</figcaption>".toList)
           ++ "<pre><code>".toList ++ html_escape text
           ++ "</code></pre></figure>".toList)
  | .link children target =>
      match ast_nodes_to_html children with
      | .error e => .error e
      | .ok inner =>
          .ok ("<a href=\"".toList ++ target ++ "\">".toList
               ++ inner ++ "</a>".toList)
  | .string text => .ok (html_escape text)
  | .space => .ok [' ']
  | .softBreak => .ok [' ']
  | .span _ _ => .error (.unhandledNodeKind ("span".toList))

/-- `ast_nodes_to_html` (`build.py` lines 207-211). -/
def ast_nodes_to_html : List Node → Except RenderError Chars
  | [] => .ok []
  | n :: ns =>
      match ast_node_to_html n with
      | .error e => .error e
      | .ok h =>
          match ast_nodes_to_html ns with
          | .error e => .error e
          | .ok rest => .ok (h ++ rest)

end

/-! ## Top-level loop and TOC synthesis (`ast_to_html`, `build.py` 179-205) -/

/-- The content loop of `ast_to_html` (`build.py` lines 180-187): render
each top-level node, and for each node whose kind is `heading` record
`(level, node_html[4:-5])` in document order. -/
def ast_to_html_loop : List Node → Except RenderError (List (Nat × Chars) × Chars)
  | [] => .ok ([], [])
  | node :: rest =>
      match ast_node_to_html node with
      | .error e => .error e
      | .ok nodeHtml =>
          match ast_to_html_loop rest with
          | .error e => .error e
          | .ok (hs, content) =>
              match node with
              | .heading level _ =>
                  .ok ((level, heading_slice nodeHtml) :: hs, nodeHtml ++ content)
              | _ => .ok (hs, nodeHtml ++ content)

/-- The TOC pass of `ast_to_html` (`build.py` lines 190-200), including the
trailing `'</li></ul>' * prev_level` after the loop. -/
def toc_entries : Nat → List (Nat × Chars) → Chars
  | prev, [] => py_str_mul ("</li></ul>".toList) prev
  | prev, (level, text) :: rest =>
      (if prev < level then py_str_mul ("<ul><li>".toList) (level - prev)
       else (if level < prev then py_str_mul ("</li></ul>".toList) (prev - level)
             else [])
            ++ "</li><li>".toList)
      ++ text ++ toc_entries level rest

/-! ## Specification-side model of the TOC as a tag sequence

To state well-formedness of the generated TOC markup we re-express the TOC
pass at the granularity of individual tags (`<ul>`, `<li>`, `</li>`,
`</ul>`, entry text) and check the tag sequence against a stack machine. -/

inductive Tag where
  | oUl
  | oLi
  | cUl
  | cLi
  | txt (s : Chars)

/-- One step of the tag stack machine: opening tags push, closing tags pop
their matching opening tag (failing on a mismatch or an empty stack), text
leaves the stack unchanged. -/
def tag_step (st : List Tag) (t : Tag) : Option (List Tag) :=
  match t with
  | .oUl => some (.oUl :: st)
  | .oLi => some (.oLi :: st)
  | .cUl =>
      match st with
      | .oUl :: s => some s
      | _ => none
  | .cLi =>
      match st with
      | .oLi :: s => some s
      | _ => none
  | .txt _ => some st

/-- Run the stack machine over a tag sequence from a given stack. -/
def run_tags (st : List Tag) : List Tag → Option (List Tag)
  | [] => some st
  | t :: ts =>
      match tag_step st t with
      | some st2 => run_tags st2 ts
      | none => none

/-- A tag sequence is well formed when, started on the empty stack, every
close matches the innermost open and the stack ends empty. -/
def tags_balanced (ts : List Tag) : Prop :=
  run_tags [] ts = some []

/-- Tag form of `'<ul><li>' * n`. -/
def open_pair_tags (n : Nat) : List Tag :=
  (List.replicate n [Tag.oUl, Tag.oLi]).flatten

/-- Tag form of `'</li></ul>' * n`. -/
def close_pair_tags (n : Nat) : List Tag :=
  (List.replicate n [Tag.cLi, Tag.cUl]).flatten

/-- The stack left by opening `n` nested `<ul><li>` pairs. -/
def open_stack (n : Nat) : List Tag :=
  (List.replicate n [Tag.oLi, Tag.oUl]).flatten

/-- Tag-level rendition of the TOC pass (`build.py` lines 190-200), tag for
tag: `'</li><li>'` is one `cLi` followed by one `oLi`. -/
def toc_tags : Nat → List (Nat × Chars) → List Tag
  | prev, [] => close_pair_tags prev
  | prev, (level, text) :: rest =>
      (if prev < level then open_pair_tags (level - prev)
       else (if level < prev then close_pair_tags (prev - level) else [])
            ++ [Tag.cLi, Tag.oLi])
      ++ Tag.txt text :: toc_tags level rest

/-- Flatten a tag back to its markup text. -/
def render_tag : Tag → Chars
  | .oUl => "<ul>".toList
  | .oLi => "<li>".toList
  | .cUl => "</ul>".toList
  | .cLi => "</li>".toList
  | .txt s => s

/-- Flatten a tag sequence back to markup text. -/
def render_tags (ts : List Tag) : Chars :=
  (ts.map render_tag).flatten

/-- The full `ast_to_html` (`build.py` lines 179-205): TOC fragment then
content fragment, each in its identifying `div`. -/
def ast_to_html (nodes : List Node) : Except RenderError Chars :=
  match ast_to_html_loop nodes with
  | .error e => .error e
  | .ok (headings, content) =>
      .ok ("<div id=\"table-of-contents\">".toList
           ++ "<h1>Table of Contents</h1>".toList
           ++ toc_entries 0 headings
           ++ "</div>".toList
           ++ "<div id=\"content\">".toList ++ content ++ "</div>".toList)

/-! ## Further specification-side definitions used by the theorems -/

/-- Character-local description of `html_escape`: only `&`, `<`, `>` are
rewritten, every other character is copied unchanged. -/
def escape_char (c : Char) : Chars :=
  if c = '&' then "&amp;".toList
  else if c = '<' then "&lt;".toList
  else if c = '>' then "&gt;".toList
  else [c]

/-- Wrap a node in `k` nested strong-text nodes, to speak about rendering
at arbitrary nesting depth. -/
def nest_strong : Nat → Node → Node
  | 0, n => n
  | k + 1, n => .strongText [nest_strong k n]

mutual

/-- No `span` node occurs anywhere in the tree. -/
def node_span_free : Node → Bool
  | .span _ _ => false
  | .heading _ cs => nodes_span_free cs
  | .paragraph cs => nodes_span_free cs
  | .plainText cs => nodes_span_free cs
  | .strongText cs => nodes_span_free cs
  | .emphasizedText cs => nodes_span_free cs
  | .orderedList _ _ _ cs => nodes_span_free cs
  | .listItem cs => nodes_span_free cs
  | .link cs _ => nodes_span_free cs
  | .todoItem _ cs => nodes_span_free cs
  | .orgDirective _ _ => true
  | .codeBlock _ _ _ => true
  | .inlineCode _ => true
  | .string _ => true
  | .space => true
  | .softBreak => true

/-- No `span` node occurs anywhere in the list of trees. -/
def nodes_span_free : List Node → Bool
  | [] => true
  | n :: ns => node_span_free n && nodes_span_free ns

end

/-- Recognizer for the `heading` node kind (the condition of the
`if node[0] == 'heading'` test in `build.py` line 185). -/
def node_is_heading : Node → Bool
  | .heading _ _ => true
  | _ => false

/-- Every top-level heading has a single-digit level. -/
def heading_levels_small : List Node → Bool
  | [] => true
  | .heading l _ :: ns => decide (l ≤ 9) && heading_levels_small ns
  | _ :: ns => heading_levels_small ns

/-- Relation between a heading node and its recorded TOC pair: the pair
holds the heading's level and exactly the rendering of its children (the
text between the opening and closing heading tags). -/
def heading_rel (n : Node) (e : Nat × Chars) : Prop :=
  ∃ l cs inner, n = Node.heading l cs ∧ ast_nodes_to_html cs = .ok inner ∧
    e = (l, inner)

/-- Modelled from the claim wording of C7: trimming a string, i.e.
removing leading and trailing whitespace (what "the remainder of the line
trimmed" requires of the directive value). -/
def spec_trim (s : Chars) : Chars :=
  ((s.dropWhile is_space_char).reverse.dropWhile is_space_char).reverse

/-! ## Lemmas about `html_escape` -/

lemma str_replace_append (c : Char) (r : Chars) (a b : Chars) :
    str_replace c r (a ++ b) = str_replace c r a ++ str_replace c r b := by
  induction a with
  | nil => rfl
  | cons x xs ih => simp [str_replace, ih, List.append_assoc]

lemma html_escape_cons (c : Char) (cs : Chars) :
    html_escape (c :: cs) = escape_char c ++ html_escape cs := by
  show str_replace '>' _ (str_replace '<' _ (str_replace '&' _ (c :: cs))) = _
  have h0 : str_replace '&' ("&amp;".toList) (c :: cs)
      = (if c = '&' then "&amp;".toList else [c])
        ++ str_replace '&' ("&amp;".toList) cs := rfl
  rw [h0, str_replace_append, str_replace_append]
  show _ ++ html_escape cs = _
  congr 1
  by_cases h1 : c = '&'
  · subst h1; decide
  · by_cases h2 : c = '<'
    · subst h2; decide
    · by_cases h3 : c = '>'
      · subst h3; decide
      · simp [str_replace, escape_char, h1, h2, h3]

lemma html_escape_eq_flatten (s : Chars) :
    html_escape s = (s.map escape_char).flatten := by
  induction s with
  | nil => rfl
  | cons c cs ih => simp [html_escape_cons, ih]

/-! ## Shape lemmas for the renderer -/

lemma ast_node_to_html_heading (n : Nat) (cs : List Node) :
    ast_node_to_html (.heading n cs)
      = (ast_nodes_to_html cs).map
          (fun inner => heading_open n ++ inner ++ heading_close n) := by
  cases h : ast_nodes_to_html cs <;> simp [ast_node_to_html, h, Except.map]

lemma ast_node_to_html_link (cs : List Node) (target : Chars) :
    ast_node_to_html (.link cs target)
      = (ast_nodes_to_html cs).map
          (fun inner => "<a href=\"".toList ++ target ++ "\">".toList
                        ++ inner ++ "</a>".toList) := by
  cases h : ast_nodes_to_html cs <;> simp [ast_node_to_html, h, Except.map]

lemma py_str_mul_succ (s : Chars) (n : Nat) :
    py_str_mul s (n + 1) = s ++ py_str_mul s n := by
  simp [py_str_mul, List.replicate_succ]

lemma py_str_mul_succ' (s : Chars) (n : Nat) :
    py_str_mul s (n + 1) = py_str_mul s n ++ s := by
  simp [py_str_mul, List.replicate_succ']

lemma nest_strong_render (s : Chars) (k : Nat) :
    ast_node_to_html (nest_strong k (.string s))
      = .ok (py_str_mul ("<strong>".toList) k ++ html_escape s
             ++ py_str_mul ("</strong>".toList) k) := by
  induction k with
  | zero => simp [nest_strong, ast_node_to_html, py_str_mul]
  | succ k ih =>
      rw [py_str_mul_succ, py_str_mul_succ']
      show ast_node_to_html (.strongText [nest_strong k (.string s)]) = _
      simp [ast_node_to_html, ast_nodes_to_html, ih, List.append_assoc]

/-! ## Lemmas about the TOC tag machine -/

lemma run_tags_append (a b : List Tag) (st : List Tag) :
    run_tags st (a ++ b) = (run_tags st a).bind (fun st2 => run_tags st2 b) := by
  induction a generalizing st with
  | nil => rfl
  | cons t ts ih =>
      show run_tags st (t :: (ts ++ b)) = _
      rw [run_tags, run_tags]
      cases h : tag_step st t with
      | none => rfl
      | some st2 => exact ih st2

lemma open_stack_add (a b : Nat) :
    open_stack (a + b) = open_stack a ++ open_stack b := by
  rw [open_stack, open_stack, open_stack, List.replicate_add, List.flatten_append]

lemma open_pair_tags_succ (k : Nat) :
    open_pair_tags (k + 1) = [Tag.oUl, Tag.oLi] ++ open_pair_tags k := by
  simp [open_pair_tags, List.replicate_succ]

lemma close_pair_tags_succ (k : Nat) :
    close_pair_tags (k + 1) = [Tag.cLi, Tag.cUl] ++ close_pair_tags k := by
  simp [close_pair_tags, List.replicate_succ]

lemma open_stack_succ (k : Nat) :
    open_stack (k + 1) = Tag.oLi :: Tag.oUl :: open_stack k := by
  simp [open_stack, List.replicate_succ]

lemma run_tags_open (n : Nat) (st : List Tag) :
    run_tags st (open_pair_tags n) = some (open_stack n ++ st) := by
  induction n generalizing st with
  | zero => rfl
  | succ k ih =>
      rw [open_pair_tags_succ]
      show run_tags (Tag.oLi :: Tag.oUl :: st) (open_pair_tags k) = _
      rw [ih]
      have h2 : open_stack (k + 1) = open_stack k ++ [Tag.oLi, Tag.oUl] := by
        simp [open_stack, List.replicate_succ']
      rw [h2]
      simp

lemma run_tags_close (n : Nat) (st : List Tag) :
    run_tags (open_stack n ++ st) (close_pair_tags n) = some st := by
  induction n generalizing st with
  | zero => rfl
  | succ k ih =>
      rw [close_pair_tags_succ, open_stack_succ]
      show run_tags (open_stack k ++ st) (close_pair_tags k) = some st
      exact ih st

lemma toc_tags_run (hs : List (Nat × Chars)) :
    ∀ prev : Nat, (∀ p ∈ hs, 1 ≤ p.1) →
      run_tags (open_stack prev) (toc_tags prev hs) = some [] := by
  induction hs with
  | nil =>
      intro prev _
      rw [toc_tags]
      have h := run_tags_close prev []
      rwa [List.append_nil] at h
  | cons p rest ih =>
      intro prev hall
      obtain ⟨level, text⟩ := p
      have hlev : 1 ≤ level := hall _ (List.mem_cons_self _ _)
      have hrest : ∀ q ∈ rest, 1 ≤ q.1 := fun q hq => hall q (List.mem_cons_of_mem _ hq)
      by_cases hgt : prev < level
      · rw [toc_tags, if_pos hgt, run_tags_append, run_tags_open]
        show run_tags (open_stack (level - prev) ++ open_stack prev)
              (Tag.txt text :: toc_tags level rest) = some []
        have hst : open_stack (level - prev) ++ open_stack prev = open_stack level := by
          rw [← open_stack_add]
          congr 1
          omega
        rw [hst]
        show run_tags (open_stack level) (toc_tags level rest) = some []
        exact ih level hrest
      · have hle : level ≤ prev := Nat.le_of_not_lt hgt
        have hsplit : open_stack prev = open_stack (prev - level) ++ open_stack level := by
          rw [← open_stack_add]
          congr 1
          omega
        have hlstack : open_stack level = Tag.oLi :: Tag.oUl :: open_stack (level - 1) := by
          obtain ⟨k, rfl⟩ : ∃ k, level = k + 1 := ⟨level - 1, by omega⟩
          simpa using open_stack_succ k
        by_cases hlt : level < prev
        · rw [toc_tags, if_neg hgt, if_pos hlt, List.append_assoc,
              run_tags_append, hsplit, run_tags_close]
          show run_tags (open_stack level) ([Tag.cLi, Tag.oLi]
                ++ Tag.txt text :: toc_tags level rest) = some []
          rw [hlstack]
          show run_tags (Tag.oLi :: Tag.oUl :: open_stack (level - 1))
              (toc_tags level rest) = some []
          rw [← hlstack]
          exact ih level hrest
        · have heq : level = prev := by omega
          subst heq
          rw [toc_tags, if_neg hgt, if_neg hlt]
          show run_tags (open_stack level) ([Tag.cLi, Tag.oLi]
                ++ Tag.txt text :: toc_tags level rest) = some []
          rw [hlstack]
          show run_tags (Tag.oLi :: Tag.oUl :: open_stack (level - 1))
              (toc_tags level rest) = some []
          rw [← hlstack]
          exact ih level hrest

lemma render_tags_append (a b : List Tag) :
    render_tags (a ++ b) = render_tags a ++ render_tags b := by
  simp [render_tags]

lemma render_open_pair_tags (n : Nat) :
    render_tags (open_pair_tags n) = py_str_mul ("<ul><li>".toList) n := by
  induction n with
  | zero => rfl
  | succ k ih =>
      rw [open_pair_tags_succ, render_tags_append, ih, py_str_mul_succ]
      congr 1

lemma render_close_pair_tags (n : Nat) :
    render_tags (close_pair_tags n) = py_str_mul ("</li></ul>".toList) n := by
  induction n with
  | zero => rfl
  | succ k ih =>
      rw [close_pair_tags_succ, render_tags_append, ih, py_str_mul_succ]
      congr 1

lemma toc_entries_eq_render_tags (hs : List (Nat × Chars)) :
    ∀ prev : Nat, toc_entries prev hs = render_tags (toc_tags prev hs) := by
  induction hs with
  | nil => intro prev; rw [toc_entries, toc_tags, render_close_pair_tags]
  | cons p rest ih =>
      intro prev
      obtain ⟨level, text⟩ := p
      by_cases hgt : prev < level
      · rw [toc_entries, toc_tags, if_pos hgt, if_pos hgt, render_tags_append,
            render_open_pair_tags]
        show _ = _ ++ render_tags (Tag.txt text :: toc_tags level rest)
        have h : render_tags (Tag.txt text :: toc_tags level rest)
            = text ++ render_tags (toc_tags level rest) := by
          simp [render_tags, render_tag]
        rw [h, ih level, List.append_assoc]
      · by_cases hlt : level < prev
        · rw [toc_entries, toc_tags, if_neg hgt, if_neg hgt, if_pos hlt, if_pos hlt,
              render_tags_append, render_tags_append, render_close_pair_tags]
          have h : render_tags (Tag.txt text :: toc_tags level rest)
              = text ++ render_tags (toc_tags level rest) := by
            simp [render_tags, render_tag]
          rw [h, ih level]
          have h2 : render_tags [Tag.cLi, Tag.oLi] = "</li><li>".toList := rfl
          rw [h2, List.append_assoc]
        · rw [toc_entries, toc_tags, if_neg hgt, if_neg hgt, if_neg hlt, if_neg hlt,
              render_tags_append]
          have h : render_tags (Tag.txt text :: toc_tags level rest)
              = text ++ render_tags (toc_tags level rest) := by
            simp [render_tags, render_tag]
          rw [h, ih level]
          have h2 : render_tags ([] ++ [Tag.cLi, Tag.oLi]) = "</li><li>".toList := rfl
          rw [h2]
          simp [List.append_assoc]

/-! ## Heading tags and the TOC text slice -/

lemma toDigits_single (l : Nat) (h : l ≤ 9) : ∃ d, Nat.toDigits 10 l = [d] := by
  interval_cases l <;> exact ⟨_, rfl⟩

lemma heading_slice_wrap (l : Nat) (inner : Chars) (h : l ≤ 9) :
    heading_slice (heading_open l ++ inner ++ heading_close l) = inner := by
  obtain ⟨d, hd⟩ := toDigits_single l h
  have hopen : heading_open l = ['<', 'h', d, '>'] := by
    rw [heading_open, hd]; rfl
  have hclose : heading_close l = ['<', '/', 'h', d, '>'] := by
    rw [heading_close, hd]; rfl
  rw [hopen, hclose, heading_slice]
  have hdrop : ((['<', 'h', d, '>'] : Chars) ++ inner ++ ['<', '/', 'h', d, '>']).drop 4
      = inner ++ ['<', '/', 'h', d, '>'] := by
    rw [List.append_assoc]
    rfl
  have hlen : ((['<', 'h', d, '>'] : Chars) ++ inner ++ ['<', '/', 'h', d, '>']).length - 9
      = inner.length := by
    simp [List.length_append]
  rw [hdrop, hlen, List.take_left]

/-! ## Rendering succeeds on span-free trees -/

mutual

/-- A node with no `span` anywhere renders without error: every other
semantic node kind has a branch in `ast_node_to_html`'s dispatch chain. -/
def render_ok_of_span_free : (n : Node) → node_span_free n = true →
    (ast_node_to_html n).isOk = true
  | .orgDirective _ _, _ => rfl
  | .todoItem _ _, _ => rfl
  | .heading l cs, h => by
      have h2 := renders_ok_of_span_free cs (by simpa [node_span_free] using h)
      cases hr : ast_nodes_to_html cs with
      | error e => rw [hr] at h2; simp [Except.isOk, Except.toBool] at h2
      | ok inner => simp [ast_node_to_html, hr, Except.isOk, Except.toBool]
  | .paragraph cs, h => by
      have h2 := renders_ok_of_span_free cs (by simpa [node_span_free] using h)
      cases hr : ast_nodes_to_html cs with
      | error e => rw [hr] at h2; simp [Except.isOk, Except.toBool] at h2
      | ok inner => simp [ast_node_to_html, hr, Except.isOk, Except.toBool]
  | .plainText cs, h => by
      have h2 := renders_ok_of_span_free cs (by simpa [node_span_free] using h)
      simpa [ast_node_to_html] using h2
  | .strongText cs, h => by
      have h2 := renders_ok_of_span_free cs (by simpa [node_span_free] using h)
      cases hr : ast_nodes_to_html cs with
      | error e => rw [hr] at h2; simp [Except.isOk, Except.toBool] at h2
      | ok inner => simp [ast_node_to_html, hr, Except.isOk, Except.toBool]
  | .emphasizedText cs, h => by
      have h2 := renders_ok_of_span_free cs (by simpa [node_span_free] using h)
      cases hr : ast_nodes_to_html cs with
      | error e => rw [hr] at h2; simp [Except.isOk, Except.toBool] at h2
      | ok inner => simp [ast_node_to_html, hr, Except.isOk, Except.toBool]
  | .orderedList st sty d cs, h => by
      have h2 := renders_ok_of_span_free cs (by simpa [node_span_free] using h)
      cases hr : ast_nodes_to_html cs with
      | error e => rw [hr] at h2; simp [Except.isOk, Except.toBool] at h2
      | ok inner => simp [ast_node_to_html, hr, Except.isOk, Except.toBool]
  | .listItem cs, h => by
      have h2 := renders_ok_of_span_free cs (by simpa [node_span_free] using h)
      cases hr : ast_nodes_to_html cs with
      | error e => rw [hr] at h2; simp [Except.isOk, Except.toBool] at h2
      | ok inner => simp [ast_node_to_html, hr, Except.isOk, Except.toBool]
  | .link cs t, h => by
      have h2 := renders_ok_of_span_free cs (by simpa [node_span_free] using h)
      cases hr : ast_nodes_to_html cs with
      | error e => rw [hr] at h2; simp [Except.isOk, Except.toBool] at h2
      | ok inner => simp [ast_node_to_html, hr, Except.isOk, Except.toBool]
  | .codeBlock _ _ _, _ => rfl
  | .inlineCode _, _ => rfl
  | .string _, _ => rfl
  | .space, _ => rfl
  | .softBreak, _ => rfl

/-- List form of `render_ok_of_span_free`. -/
def renders_ok_of_span_free : (ns : List Node) → nodes_span_free ns = true →
    (ast_nodes_to_html ns).isOk = true
  | [], _ => rfl
  | n :: ns, h => by
      have hh : node_span_free n = true ∧ nodes_span_free ns = true := by
        simpa [nodes_span_free, Bool.and_eq_true] using h
      have h1 := render_ok_of_span_free n hh.1
      have h2 := renders_ok_of_span_free ns hh.2
      cases hr : ast_node_to_html n with
      | error e => rw [hr] at h1; simp [Except.isOk, Except.toBool] at h1
      | ok s =>
          cases hrs : ast_nodes_to_html ns with
          | error e => rw [hrs] at h2; simp [Except.isOk, Except.toBool] at h2
          | ok rest => simp [ast_nodes_to_html, hr, hrs, Except.isOk, Except.toBool]

end

/-! ## The TOC recording loop -/

lemma ast_to_html_loop_headings (nodes : List Node) :
    ∀ (hs : List (Nat × Chars)) (content : Chars),
      ast_to_html_loop nodes = .ok (hs, content) →
      heading_levels_small nodes = true →
      List.Forall₂ heading_rel (nodes.filter node_is_heading) hs := by
  induction nodes with
  | nil =>
      intro hs content h _
      rw [ast_to_html_loop] at h
      obtain ⟨h1, h2⟩ : ([] : List (Nat × Chars)) = hs ∧ ([] : Chars) = content := by
        simpa using h
      subst h1
      simp [List.filter]
  | cons node rest ih =>
      intro hs content h hlev
      rw [ast_to_html_loop] at h
      cases hr : ast_node_to_html node with
      | error e => rw [hr] at h; simp at h
      | ok nodeHtml =>
          rw [hr] at h
          cases hl : ast_to_html_loop rest with
          | error e => rw [hl] at h; simp at h
          | ok pr =>
              obtain ⟨hs', content'⟩ := pr
              rw [hl] at h
              cases node
              case heading l cs =>
                  have hsplit : (l, heading_slice nodeHtml) :: hs' = hs
                      ∧ nodeHtml ++ content' = content := by
                    simpa using h
                  obtain ⟨h5, _⟩ := hsplit
                  subst h5
                  have hll : l ≤ 9 ∧ heading_levels_small rest = true := by
                    simpa [heading_levels_small, Bool.and_eq_true] using hlev
                  have hinner : ∃ inner, ast_nodes_to_html cs = .ok inner
                      ∧ nodeHtml = heading_open l ++ inner ++ heading_close l := by
                    have hh := ast_node_to_html_heading l cs
                    rw [hr] at hh
                    cases hcs : ast_nodes_to_html cs with
                    | error e => rw [hcs] at hh; simp [Except.map] at hh
                    | ok inner =>
                        rw [hcs] at hh
                        refine ⟨inner, rfl, ?_⟩
                        simpa [Except.map] using hh
                  obtain ⟨inner, hcs, hwrap⟩ := hinner
                  have hslice : heading_slice nodeHtml = inner := by
                    rw [hwrap]
                    exact heading_slice_wrap l inner hll.1
                  have hfilter : (Node.heading l cs :: rest).filter node_is_heading
                      = Node.heading l cs :: rest.filter node_is_heading := by
                    simp [List.filter_cons, node_is_heading]
                  rw [hfilter, hslice]
                  exact List.Forall₂.cons ⟨l, cs, inner, rfl, hcs, rfl⟩
                    (ih hs' content' hl hll.2)
              all_goals
                first
                | (obtain ⟨h5, _⟩ : hs' = hs ∧ nodeHtml ++ content' = content := by
                      simpa using h
                   subst h5
                   refine List.Forall₂.imp (fun a b hab => hab) ?_
                   have hlev' : heading_levels_small rest = true := by
                     simpa [heading_levels_small] using hlev
                   have hfilter := ih hs' content' hl hlev'
                   simpa [List.filter_cons, node_is_heading] using hfilter)

/-! ## Claim theorems -/

/-- C1: for every recorded heading sequence with all levels ≥ 1, the TOC
string built by the single left-to-right pass with previous level 0
(`toc_entries 0`) is the flattening of a tag sequence (`toc_tags 0`) that
the tag stack machine accepts with an empty final stack: every opened
list/list-item pair has a matching close, even when levels skip or
decrease by more than one.  For the level sequence `[2]` alone, exactly
two nested list levels open before the entry and exactly two close at the
end. -/
theorem c1_toc_well_formed (hs : List (Nat × Chars)) (hlev : ∀ p ∈ hs, 1 ≤ p.1) :
    toc_entries 0 hs = render_tags (toc_tags 0 hs) ∧
    tags_balanced (toc_tags 0 hs) ∧
    toc_entries 0 [(2, "X".toList)]
      = "<ul><li><ul><li>X</li></ul></li></ul>".toList ∧
    toc_tags 0 [(2, "X".toList)]
      = [Tag.oUl, Tag.oLi, Tag.oUl, Tag.oLi, Tag.txt ("X".toList),
         Tag.cLi, Tag.cUl, Tag.cLi, Tag.cUl] := by
  refine ⟨toc_entries_eq_render_tags hs 0, ?_, rfl, rfl⟩
  exact toc_tags_run hs 0 hlev

/-- C1 witness: the theorem applied to the concrete level sequence
`[1, 3, 2]` (with a skip up and a step down), hypotheses discharged by
computation. -/
theorem c1_toc_well_formed_witness :
    (∀ p ∈ [(1, "A".toList), (3, "B".toList), (2, "C".toList)],
        1 ≤ (p : Nat × Chars).1) ∧
    (toc_entries 0 [(1, "A".toList), (3, "B".toList), (2, "C".toList)]
        = render_tags (toc_tags 0 [(1, "A".toList), (3, "B".toList), (2, "C".toList)]) ∧
     tags_balanced (toc_tags 0 [(1, "A".toList), (3, "B".toList), (2, "C".toList)]) ∧
     toc_entries 0 [(2, "X".toList)]
        = "<ul><li><ul><li>X</li></ul></li></ul>".toList ∧
     toc_tags 0 [(2, "X".toList)]
        = [Tag.oUl, Tag.oLi, Tag.oUl, Tag.oLi, Tag.txt ("X".toList),
           Tag.cLi, Tag.cUl, Tag.cLi, Tag.cUl]) :=
  ⟨by decide, c1_toc_well_formed _ (by decide)⟩

/-- C2 counterexample: promoting `Header 2 [Span(todo)[Str "TODO"], Space,
Str "Fix"]` does not consume the marker's content: line 175 of `build.py`
replaces the span by its own first child, so the todo-item keeps three
children, with the marker text "TODO" still first (not the two subsequent
children the claim requires); and the todo-item's rendered output is the
empty string, which does not include the subsequent children (they render
to " Fix"). -/
theorem c2_counterexample :
    unwrap_block (.header 2 [] [] []
        [.span [] ["todo".toList] [] [.str "TODO".toList], .space, .str "Fix".toList])
      = .ok (.todoItem (some 2)
          [.string "TODO".toList, .space, .string "Fix".toList]) ∧
    ([Node.string "TODO".toList, Node.space, Node.string "Fix".toList]
      ≠ [Node.space, Node.string "Fix".toList]) ∧
    ast_node_to_html (.todoItem (some 2)
        [.string "TODO".toList, .space, .string "Fix".toList]) = .ok [] ∧
    ast_nodes_to_html [Node.space, Node.string "Fix".toList] = .ok " Fix".toList ∧
    ([] : Chars) ≠ " Fix".toList := by
  refine ⟨rfl, ?_, rfl, rfl, by decide⟩
  intro hlist
  have hlen := congrArg List.length hlist
  simp at hlen

/-- C2 amended: when a heading or paragraph is promoted, the marker span
is consumed as a wrapper only — it is replaced in place by its own first
child, and all subsequent children are carried unchanged (so Spans
elsewhere in the tree are untouched); the resulting todo-item renders to
the empty string, omitting the marker text and all subsequent children
alike. -/
theorem c2_amended (lvl : Option Nat) (sc : Node) (scRest rest : List Node) :
    promote_block lvl (Node.span true (sc :: scRest) :: rest)
      = .ok (.todoItem lvl (sc :: rest)) ∧
    ast_node_to_html (.todoItem lvl (sc :: rest)) = .ok [] :=
  ⟨rfl, rfl⟩

/-- C3 counterexample: a paragraph whose only child is a non-promoted span
normalizes fine, but rendering it raises `Unhandled node type: span`
(`build.py` line 276) instead of producing the empty string — the dispatch
chain of `ast_node_to_html` has no `span` case. -/
theorem c3_counterexample :
    unwrap_blocks [.para [.span [] [] [] [.str "x".toList]]]
      = .ok [.paragraph [.span false [.string "x".toList]]] ∧
    ast_nodes_to_html [.paragraph [.span false [.string "x".toList]]]
      = .error (.unhandledNodeKind "span".toList) :=
  ⟨rfl, rfl⟩

/-- C3 amended: a bare non-promoted span is a fatal `UnhandledNodeKind`
rendering error, not an empty rendering; normalize-then-render terminates
without that error exactly on trees whose normalized form contains no bare
span — for every input tree whose normalization succeeds and yields a
span-free node list, rendering succeeds. -/
theorem c3_amended (blocks : List PBlock) (nodes : List Node)
    (h1 : unwrap_blocks blocks = .ok nodes)
    (h2 : nodes_span_free nodes = true) :
    (ast_nodes_to_html nodes).isOk = true ∧
    ast_node_to_html (.span true []) = .error (.unhandledNodeKind "span".toList) :=
  ⟨renders_ok_of_span_free nodes h2, rfl⟩

/-- C3 witness: the amended theorem applied to the one-paragraph document
`<p>hi</p>`, hypotheses discharged by computation. -/
theorem c3_amended_witness :
    (unwrap_blocks [.para [.str "hi".toList]] = .ok [.paragraph [.string "hi".toList]] ∧
     nodes_span_free [.paragraph [.string "hi".toList]] = true) ∧
    ((ast_nodes_to_html [.paragraph [.string "hi".toList]]).isOk = true ∧
     ast_node_to_html (.span true []) = .error (.unhandledNodeKind "span".toList)) :=
  ⟨⟨rfl, rfl⟩, c3_amended [.para [.str "hi".toList]] [.paragraph [.string "hi".toList]] rfl rfl⟩

/-- C4 counterexample: rendering a heading of level 7 — outside 1..6 — is
not an error: it succeeds and produces the literal `<h7>` tag (there is no
`InvalidHeadingLevel` check anywhere in `ast_node_to_html`). -/
theorem c4_counterexample :
    ast_node_to_html (.heading 7 [.string "x".toList]) = .ok "<h7>x</h7>".toList ∧
    (ast_node_to_html (.heading 7 [.string "x".toList])).isOk = true ∧
    ¬ (1 ≤ 7 ∧ 7 ≤ 6) :=
  ⟨rfl, rfl, by decide⟩

/-- C4 amended: rendering a heading wraps the rendered children in the
`<hn>...</hn>` pair with the level formatted verbatim in decimal, for
every level whatsoever: levels in 1..6 give the corresponding `h1`..`h6`
tag, and levels outside that range are neither rejected nor clamped — the
out-of-range tag is emitted as-is. -/
theorem c4_amended (n : Nat) (cs : List Node) :
    ast_node_to_html (.heading n cs)
      = (ast_nodes_to_html cs).map
          (fun inner => heading_open n ++ inner ++ heading_close n) ∧
    ast_node_to_html (.heading 3 [.string "x".toList]) = .ok "<h3>x</h3>".toList ∧
    ast_node_to_html (.heading 100 [.string "x".toList]) = .ok "<h100>x</h100>".toList :=
  ⟨ast_node_to_html_heading n cs, rfl, rfl⟩

/-- Inversion helper for C5: `promote_block` produces a todo-item only
from a list whose first node is a span with the `is-todo` flag set and at
least one child. -/
lemma promote_block_todo_inv (lvl : Option Nat) (cs : List Node)
    (l' : Option Nat) (cs' : List Node)
    (hp : promote_block lvl cs = .ok (.todoItem l' cs')) :
    ∃ k ks rest, cs = Node.span true (k :: ks) :: rest := by
  cases cs with
  | nil => simp [promote_block] at hp
  | cons first rest =>
      cases first
      case span isTodo spanChildren =>
        cases isTodo with
        | false => cases lvl <;> simp [promote_block] at hp
        | true =>
            cases spanChildren with
            | nil => simp [promote_block] at hp
            | cons k ks => exact ⟨k, ks, rest, rfl⟩
      all_goals cases lvl <;> simp [promote_block] at hp

/-- C5 counterexample: the two headings below differ only in whether
their marker span is tagged "todo" or "done", yet they normalize to
literally identical todo-items — the normalizer collapses both tags into
the single `is-todo` boolean, so no completion flag equal to "done"
membership exists on the output. -/
theorem c5_counterexample :
    unwrap_block (.header 1 [] [] []
        [.span [] ["todo".toList] [] [.str "M".toList], .str "B".toList])
      = unwrap_block (.header 1 [] [] []
        [.span [] ["done".toList] [] [.str "M".toList], .str "B".toList]) ∧
    (["todo".toList] : List Chars).contains ("done".toList)
      ≠ (["done".toList] : List Chars).contains ("done".toList) :=
  ⟨rfl, by decide⟩

/-- C5 amended: a heading or paragraph becomes a todo-item iff its first
child is a span whose classification tags include "todo" or "done" (the
permissive OR rule, with the extra proviso that the span has at least one
child, since promotion indexes into it); but the resulting todo-item
records no completion flag — the "done"/"todo" distinction is discarded
at span classification time. -/
theorem c5_amended (i : Chars) (classes : List Chars) (kvs : List (Chars × Chars))
    (kids : List PBlock) (lvl : Option Nat) (cs : List Node) :
    unwrap_block (.span i classes kvs kids)
      = (unwrap_blocks kids).map
          (fun ns => Node.span
            (classes.contains ("todo".toList) || classes.contains ("done".toList)) ns) ∧
    ((∃ l' cs', promote_block lvl cs = .ok (.todoItem l' cs'))
      ↔ ∃ k ks rest, cs = Node.span true (k :: ks) :: rest) := by
  constructor
  · cases h : unwrap_blocks kids <;> simp [unwrap_block, h, Except.map]
  · constructor
    · rintro ⟨l', cs', hp⟩
      exact promote_block_todo_inv lvl cs l' cs' hp
    · rintro ⟨k, ks, rest, rfl⟩
      exact ⟨lvl, k :: rest, rfl⟩

/-- C6: escaping rewrites exactly the three characters `&`, `<`, `>` and
copies every other character unchanged (character-local, hence applied
exactly once per character); the literal text `a & b < c > d` renders to
exactly `a &amp; b &lt; c &gt; d`; and under `k` levels of nesting the
string is still escaped exactly once. -/
theorem c6_escaping (s : Chars) (k : Nat) :
    html_escape s = (s.map escape_char).flatten ∧
    ast_node_to_html (.string "a & b < c > d".toList)
      = .ok "a &amp; b &lt; c &gt; d".toList ∧
    ast_node_to_html (nest_strong k (.string s))
      = .ok (py_str_mul ("<strong>".toList) k ++ html_escape s
             ++ py_str_mul ("</strong>".toList) k) :=
  ⟨html_escape_eq_flatten s, rfl, nest_strong_render s k⟩

/-- C7 counterexample: on the raw block `#+TITLE: hi ` normalization
succeeds with value `"hi "` — the remainder of the line with its trailing
whitespace kept, which is not the trimmed remainder the claim specifies
(trimming changes it). -/
theorem c7_counterexample :
    unwrap_block (.rawBlock "org".toList "#+TITLE: hi ".toList)
      = .ok (.orgDirective "title".toList "hi ".toList) ∧
    spec_trim ("hi ".toList) ≠ "hi ".toList :=
  ⟨rfl, by decide⟩

/-- C7 amended: normalizing an org raw block succeeds iff its text
matches `#+<key>: <value>` (key: word characters; at least one whitespace
character after the colon; value: the remainder of the line with leading
whitespace consumed but trailing whitespace kept), producing a directive
with the key lower-cased; non-matching text is a fatal
`MalformedDirective`; and a directive renders to the empty string. -/
theorem c7_amended (text : Chars) :
    unwrap_block (.rawBlock "org".toList text)
      = (match regex_match_directive text with
         | some (key, value) =>
             Except.ok (Node.orgDirective (key.map Char.toLower) value)
         | none => Except.error (NormError.malformedDirective text)) ∧
    ast_node_to_html (.orgDirective "title".toList "hi ".toList) = .ok [] ∧
    regex_match_directive "#+Key_1: a b\nrest".toList
      = some ("Key_1".toList, "a b".toList) ∧
    unwrap_block (.rawBlock "org".toList "#+Key_1: a b\nrest".toList)
      = .ok (.orgDirective "key_1".toList "a b".toList) ∧
    regex_match_directive "#+title:x".toList = none ∧
    unwrap_block (.rawBlock "org".toList "#+title:x".toList)
      = .error (.malformedDirective "#+title:x".toList) :=
  ⟨rfl, rfl, rfl, rfl, rfl, rfl⟩

/-- C8: rendering a link wraps the rendered children in an anchor whose
`href` is the literal target copied verbatim — no escaping is applied to
the target, as the concrete instance with `&`, `<`, `>` in the target
shows. -/
theorem c8_link_target_verbatim (cs : List Node) (target : Chars) :
    ast_node_to_html (.link cs target)
      = (ast_nodes_to_html cs).map
          (fun inner => "<a href=\"".toList ++ target ++ "\">".toList
                        ++ inner ++ "</a>".toList) ∧
    ast_node_to_html (.link [.string "x".toList] ("a&b<c>".toList))
      = .ok "<a href=\"a&b<c>\">x</a>".toList :=
  ⟨ast_node_to_html_link cs target, rfl⟩

/-- C9 counterexample: for a heading of level 10 the recorded TOC text is
`">x<"` — the fixed `node_html[4:-5]` slice misses the two-digit tag — and
not the rendered inner text `"x"` (the rendering of the children) that
the claim requires. -/
theorem c9_counterexample :
    ast_to_html_loop [.heading 10 [.string "x".toList]]
      = .ok ([(10, ">x<".toList)], "<h10>x</h10>".toList) ∧
    ast_nodes_to_html [Node.string "x".toList] = .ok "x".toList ∧
    (">x<".toList : Chars) ≠ "x".toList :=
  ⟨rfl, rfl, by decide⟩

/-- C9 amended: while rendering the top-level sequence, provided every
top-level heading level is a single digit (≤ 9), the recorded flat list
pairs up in document order with the headings of the sequence, each entry
carrying the heading's level and exactly the rendering of its children —
the text between the opening and closing heading tags. -/
theorem c9_amended (nodes : List Node) (hs : List (Nat × Chars)) (content : Chars)
    (h1 : ast_to_html_loop nodes = .ok (hs, content))
    (h2 : heading_levels_small nodes = true) :
    List.Forall₂ heading_rel (nodes.filter node_is_heading) hs :=
  ast_to_html_loop_headings nodes hs content h1 h2

/-- C9 witness: the amended theorem applied to a concrete two-node
document, hypotheses discharged by computation. -/
theorem c9_amended_witness :
    (ast_to_html_loop [Node.heading 2 [Node.string "A".toList],
                       Node.paragraph [Node.string "B".toList]]
       = .ok ([(2, "A".toList)], "<h2>A</h2><p>B</p>".toList) ∧
     heading_levels_small [Node.heading 2 [Node.string "A".toList],
                           Node.paragraph [Node.string "B".toList]] = true) ∧
    List.Forall₂ heading_rel
      ([Node.heading 2 [Node.string "A".toList],
        Node.paragraph [Node.string "B".toList]].filter node_is_heading)
      [(2, "A".toList)] :=
  ⟨⟨rfl, rfl⟩, c9_amended _ _ _ rfl rfl⟩

/-- C10: a todo-item contributes nothing to the recorded heading list (the
loop result over `todoItem :: rest` equals the result over `rest` alone),
and in the concrete pipeline a top-level heading promoted by its todo
marker span yields no TOC entry while an unpromoted heading next to it
does. -/
theorem c10_promoted_heading_no_toc_entry (lvl : Option Nat) (cs rest : List Node) :
    ast_to_html_loop (Node.todoItem lvl cs :: rest) = ast_to_html_loop rest ∧
    (unwrap_blocks
        [.header 2 [] [] [] [.span [] ["todo".toList] [] [.str "T".toList],
                             .str "R".toList],
         .header 1 [] [] [] [.str "H".toList]]
       = .ok [.todoItem (some 2) [.string "T".toList, .string "R".toList],
              .heading 1 [.string "H".toList]] ∧
     ast_to_html_loop [Node.todoItem (some 2) [.string "T".toList, .string "R".toList],
                       Node.heading 1 [.string "H".toList]]
       = .ok ([(1, "H".toList)], "<h1>H</h1>".toList)) := by
  refine ⟨?_, rfl, rfl⟩
  rw [ast_to_html_loop]
  cases h : ast_to_html_loop rest with
  | error e => rfl
  | ok pr =>
      obtain ⟨hs, content⟩ := pr
      rfl
